import Mathlib

/-!
Verification of the Excel automation pipeline (automation.py).

The repository is a small pandas pipeline: merge_excels loads a list of
spreadsheet files, tags every loaded table with a provenance column named
__source_file, skips files that fail to load, and concatenates the loaded
tables with ignore_index=True; generate_summary sums the Sales and the
Expenses columns, forms a one-row summary table whose third field is the
difference of the two sums, and renders a bar chart of that table.

The embedding below models the pandas data the code manipulates: a table
is a column list, an index, and a list of rows, where a row is an
association list from column names to values and a missing column reads
as null (the NaN fill pandas applies when concatenating tables with
mismatched columns). File loading is modelled by an Option valued content
field on the input file: some table when pd.read_excel succeeds, none
when it raises and the except branch of the loop logs and skips the file.
-/

set_option autoImplicit false

/-- A cell value: a number, a text, or null (the pandas NaN / missing value). -/
inductive Value where
  | int : Int → Value
  | str : String → Value
  | null : Value
deriving DecidableEq, Repr

/-- A row: an association list from column names to cell values. -/
abbrev Row := List (String × Value)

/-- Value of column c in row r; null when the column is absent, which models
the NaN a pandas frame shows for a column the row never had. -/
def cellVal (r : Row) (c : String) : Value :=
  match r with
  | [] => Value.null
  | (k, v) :: rest => if k = c then v else cellVal rest c

/-- Whether row r carries a binding for column c. -/
def hasKey (r : Row) (c : String) : Bool :=
  match r with
  | [] => false
  | (k, _) :: rest => if k = c then true else hasKey rest c

/-- Column assignment restricted to one row: when the key is already present
its value is overwritten in place (pandas replaces an existing column), else
the binding is appended at the end (pandas appends a new column). -/
def setCell (r : Row) (c : String) (v : Value) : Row :=
  if hasKey r c then r.map (fun p => if p.1 = c then (c, v) else p)
  else r ++ [(c, v)]

/-- A pandas DataFrame: named columns, a row index, and the rows. -/
structure DataFrame where
  cols : List String
  index : List Int
  rows : List Row
deriving DecidableEq, Repr

/-- pd.DataFrame(): the empty table, with no columns and no rows. -/
def emptyDF : DataFrame := { cols := [], index := [], rows := [] }

/-- df[c] = v with a scalar v: every row gets value v in column c, and the
column list gains c at its end when c was not already a column. -/
def setColumn (df : DataFrame) (c : String) (v : Value) : DataFrame :=
  { cols := if c ∈ df.cols then df.cols else df.cols ++ [c]
    index := df.index
    rows := df.rows.map (fun r => setCell r c v) }

/-- Append to acc the columns of cs not already present, keeping order. -/
def addNewCols (acc : List String) (cs : List String) : List String :=
  acc ++ cs.filter (fun c => decide (c ∉ acc))

/-- Worker for unionCols, folding the frames over an accumulator. -/
def unionColsFrom (acc : List String) : List DataFrame → List String
  | [] => acc
  | d :: ds => unionColsFrom (addNewCols acc d.cols) ds

/-- Column union in order of first appearance, as pd.concat aligns the
columns of frames with mismatched schemas (default sort=False). -/
def unionCols (dfs : List DataFrame) : List String :=
  unionColsFrom [] dfs

/-- Align one row to a full column list, reading null for the columns the
row lacks: the NaN fill of pd.concat for columns absent in a source. -/
def normalizeRow (cols : List String) (r : Row) : Row :=
  cols.map (fun c => (c, cellVal r c))

/-- The rows of pd.concat(dfs): the rows of each frame, aligned to the
column union, stacked in frame order then row order. -/
def concatRows (dfs : List DataFrame) : List Row :=
  (dfs.map (fun d => d.rows.map (normalizeRow (unionCols dfs)))).flatten

/-- pd.concat(dfs, ignore_index=True): union of the columns, the stacked
aligned rows, and a fresh contiguous integer index 0..n-1 that ignores
every per-source index. -/
def concatIgnoreIndex (dfs : List DataFrame) : DataFrame :=
  { cols := unionCols dfs
    index := (List.range (concatRows dfs).length).map Int.ofNat
    rows := concatRows dfs }

/-- One input path as merge_excels sees it: the base name fp.name, and the
outcome of pd.read_excel(fp): some table on success, none when the read
raises and the except branch logs the failure and skips the file. -/
structure InputFile where
  name : String
  content : Option DataFrame
deriving DecidableEq, Repr

/-- The body of the merge loop on one file: when the read succeeded, the
loaded table with column __source_file set to the base name of the file;
none when the read failed, so the file contributes no frame. -/
def tagSource (f : InputFile) : Option DataFrame :=
  f.content.map (fun df => setColumn df "__source_file" (Value.str f.name))

/-- merge_excels: an empty table when the file list is empty; otherwise tag
every successfully loaded table with its source and collect them, and
return an empty table when no file loaded, else their concatenation with
ignore_index=True. -/
def merge_excels (files : List InputFile) : DataFrame :=
  if files.isEmpty then emptyDF
  else
    if (files.filterMap tagSource).isEmpty then emptyDF
    else concatIgnoreIndex (files.filterMap tagSource)

/-- df[c] as a read: the column values top to bottom when column c exists;
none models the KeyError pandas raises for a missing column, which
generate_summary does not catch. -/
def getColumn (df : DataFrame) (c : String) : Option (List Value) :=
  if c ∈ df.cols then some (df.rows.map (fun r => cellVal r c)) else none

/-- Series.sum with the default skipna: numeric entries add up and null
contributes nothing. The spec restricts the summed columns to numeric
ones, so only the numeric case is exercised. -/
def vsum : List Value → Int
  | [] => 0
  | Value.int n :: vs => n + vsum vs
  | Value.str _ :: vs => vsum vs
  | Value.null :: vs => vsum vs

/-- The bar chart generate_summary renders and saves: its bars, the x axis
tick labels, the y axis label, the title, and the path the PNG is saved to. -/
structure BarChart where
  bars : List (String × Value)
  xticklabels : List String
  ylabel : String
  title : String
  path : String
deriving DecidableEq, Repr

/-- df.plot(kind=bar): one bar per (row, column) cell, in row major order;
each bar carries its column name (shown as its legend label) and its value. -/
def plotBars (df : DataFrame) : List (String × Value) :=
  (df.rows.map (fun r => df.cols.map (fun c => (c, cellVal r c)))).flatten

/-- The single summary row, in the field order of the dict literal. -/
def summaryRow (a b p : Int) : Row :=
  [("Total Sales", Value.int a), ("Total Expenses", Value.int b),
   ("Total Profit", Value.int p)]

/-- The one-row summary frame pd.DataFrame builds from the dict literal:
three columns in literal order and the default RangeIndex [0]. -/
def summaryFrame (a b p : Int) : DataFrame :=
  { cols := ["Total Sales", "Total Expenses", "Total Profit"]
    index := [0]
    rows := [summaryRow a b p] }

/-- The chart generate_summary builds from the summary frame s: the bars of
s.plot(kind=bar); x tick labels set by ax.set_xticklabels(s.index) to the
index of s rendered as text; ylabel Amount; title Summary; saved under a
timestamped name in the output directory. -/
def chartOf (ts : String) (s : DataFrame) : BarChart :=
  { bars := plotBars s
    xticklabels := s.index.map (fun i => toString i)
    ylabel := "Amount"
    title := "Summary"
    path := "output/summary_bar_chart_" ++ ts ++ ".png" }

/-- generate_summary: read the Sales column and the Expenses column (a
missing one raises, modelled by none), build the one-row summary whose
Total Profit entry is the difference of the two sums, and render and save
the bar chart; ts is the timestamp used in the saved file name. -/
def generate_summary (ts : String) (df : DataFrame) :
    Option (DataFrame × BarChart) :=
  match getColumn df "Sales" with
  | none => none
  | some sales =>
    match getColumn df "Expenses" with
    | none => none
    | some expenses =>
      let s := summaryFrame (vsum sales) (vsum expenses)
        (vsum sales - vsum expenses)
      some (s, chartOf ts s)

/-- df[c] as a state threaded read: the frame exactly as the operation
leaves it, together with the column values; reading a column never
modifies the frame. -/
def getitem (df : DataFrame) (c : String) : Option (DataFrame × List Value) :=
  (getColumn df c).map (fun col => (df, col))

/-- generate_summary with the input frame threaded through the four column
reads the dict literal performs (Sales, Expenses, then Sales and Expenses
again for the profit entry), returning the input frame as the call leaves
it alongside the summary frame and the chart. -/
def generate_summary_state (ts : String) (df : DataFrame) :
    Option (DataFrame × DataFrame × BarChart) :=
  match getitem df "Sales" with
  | none => none
  | some (df1, sales) =>
    match getitem df1 "Expenses" with
    | none => none
    | some (df2, expenses) =>
      match getitem df2 "Sales" with
      | none => none
      | some (df3, sales2) =>
        match getitem df3 "Expenses" with
        | none => none
        | some (df4, expenses2) =>
          let s := summaryFrame (vsum sales) (vsum expenses)
            (vsum sales2 - vsum expenses2)
          some (df4, s, chartOf ts s)

/-- The provenance column of a frame, read row by row. -/
def provCol (df : DataFrame) : List Value :=
  df.rows.map (fun r => cellVal r "__source_file")

/-- Replace the index of a frame by an arbitrary one, leaving the columns
and the rows alone. Used to state that the merge ignores source indices. -/
def reindexDF (g : DataFrame → List Int) (d : DataFrame) : DataFrame :=
  { cols := d.cols, index := g d, rows := d.rows }

/-- Replace the index of the loaded content of a file, when it loaded. -/
def reindexFile (g : DataFrame → List Int) (f : InputFile) : InputFile :=
  { name := f.name, content := f.content.map (reindexDF g) }

/-- The index free part of a frame: its columns and its rows. -/
def stripIndex (d : DataFrame) : List String × List Row :=
  (d.cols, d.rows)

/-- A concrete merged table: the two-file scenario of the spec, three rows
with Sales 100, 200, 300 and Expenses 50, 50, 100. -/
def dfExample : DataFrame :=
  { cols := ["Sales", "Expenses", "__source_file"]
    index := [0, 1, 2]
    rows := [
      [("Sales", Value.int 100), ("Expenses", Value.int 50),
        ("__source_file", Value.str "jan.xlsx")],
      [("Sales", Value.int 200), ("Expenses", Value.int 50),
        ("__source_file", Value.str "jan.xlsx")],
      [("Sales", Value.int 300), ("Expenses", Value.int 100),
        ("__source_file", Value.str "feb.xlsx")]] }

/-- A concrete table lacking the Sales column. -/
def dfNoSales : DataFrame :=
  { cols := ["Expenses"], index := [0], rows := [[("Expenses", Value.int 5)]] }

/-- A concrete loaded table that already carries a __source_file column. -/
def dfDup : DataFrame :=
  { cols := ["Sales", "__source_file"]
    index := [0]
    rows := [[("Sales", Value.int 1), ("__source_file", Value.str "old.xlsx")]] }

/-- A concrete input file whose loaded table already has __source_file. -/
def fileDup : InputFile := { name := "jan.xlsx", content := some dfDup }

/-! ### Basic lemmas about rows and columns -/

theorem cellVal_map_set (r : Row) (c : String) (v : Value)
    (h : hasKey r c = true) :
    cellVal (r.map (fun p => if p.1 = c then (c, v) else p)) c = v := by
  induction r with
  | nil => simp [hasKey] at h
  | cons p rest ih =>
    obtain ⟨k, w⟩ := p
    simp only [List.map_cons]
    by_cases hk : k = c
    · subst hk
      rw [if_pos (show (k, w).1 = k from rfl)]
      simp [cellVal]
    · rw [if_neg (show ¬ ((k, w).1 = c) from hk)]
      have hrest : hasKey rest c = true := by simpa [hasKey, hk] using h
      simp [cellVal, hk, ih hrest]

theorem cellVal_append_new (r : Row) (c : String) (v : Value)
    (h : hasKey r c = false) :
    cellVal (r ++ [(c, v)]) c = v := by
  induction r with
  | nil => simp [cellVal]
  | cons p rest ih =>
    obtain ⟨k, w⟩ := p
    by_cases hk : k = c
    · simp [hasKey, hk] at h
    · have hrest : hasKey rest c = false := by simpa [hasKey, hk] using h
      simp [cellVal, hk, ih hrest]

theorem cellVal_setCell (r : Row) (c : String) (v : Value) :
    cellVal (setCell r c v) c = v := by
  unfold setCell
  split
  · next h => exact cellVal_map_set r c v h
  · next h => exact cellVal_append_new r c v (by simpa using h)

theorem map_eq_replicate_of_forall {α β : Type} (l : List α) (f : α → β) (b : β)
    (h : ∀ a ∈ l, f a = b) :
    l.map f = List.replicate l.length b := by
  induction l with
  | nil => rfl
  | cons a l ih =>
    simp [List.replicate_succ, h a (by simp),
      ih (fun x hx => h x (by simp [hx]))]

theorem provCol_setColumn (df : DataFrame) (s : String) :
    provCol (setColumn df "__source_file" (Value.str s))
      = List.replicate df.rows.length (Value.str s) := by
  unfold provCol setColumn
  simp only [List.map_map]
  have := map_eq_replicate_of_forall df.rows
    (fun r => cellVal (setCell r "__source_file" (Value.str s)) "__source_file")
    (Value.str s) (fun r _ => cellVal_setCell r _ _)
  simpa [Function.comp] using this

theorem mem_addNewCols (acc cs : List String) (c : String) :
    c ∈ addNewCols acc cs ↔ c ∈ acc ∨ c ∈ cs := by
  simp only [addNewCols, List.mem_append, List.mem_filter, decide_eq_true_eq]
  tauto

theorem mem_unionColsFrom (ds : List DataFrame) (acc : List String) (c : String) :
    c ∈ unionColsFrom acc ds ↔ c ∈ acc ∨ ∃ d ∈ ds, c ∈ d.cols := by
  induction ds generalizing acc with
  | nil => simp [unionColsFrom]
  | cons d ds ih =>
    simp only [unionColsFrom, ih, mem_addNewCols, List.mem_cons]
    constructor
    · rintro (⟨h | h⟩ | ⟨e, he, hc⟩)
      · exact Or.inl h
      · exact Or.inr ⟨d, Or.inl rfl, h⟩
      · exact Or.inr ⟨e, Or.inr he, hc⟩
    · rintro (h | ⟨e, he | he, hc⟩)
      · exact Or.inl (Or.inl h)
      · subst he; exact Or.inl (Or.inr hc)
      · exact Or.inr ⟨e, he, hc⟩

theorem mem_unionCols (dfs : List DataFrame) (c : String) :
    c ∈ unionCols dfs ↔ ∃ d ∈ dfs, c ∈ d.cols := by
  simp [unionCols, mem_unionColsFrom]

theorem cellVal_normalizeRow (cols : List String) (r : Row) (c : String) :
    cellVal (normalizeRow cols r) c
      = if c ∈ cols then cellVal r c else Value.null := by
  induction cols with
  | nil => simp [normalizeRow, cellVal]
  | cons k ks ih =>
    simp only [normalizeRow, List.map_cons] at ih ⊢
    by_cases hk : k = c
    · subst hk
      simp [cellVal]
    · have hck : ¬ c = k := fun hh => hk hh.symm
      simp [cellVal, hk, hck, ih]

/-! ### Row counts of the merge (claim C1) -/

theorem concatRows_length (dfs : List DataFrame) :
    (concatRows dfs).length = (dfs.map (fun d => d.rows.length)).sum := by
  simp [concatRows, Function.comp_def]

theorem frames_nrows (files : List InputFile) :
    (files.filterMap tagSource).map (fun d => d.rows.length)
      = (files.filterMap (fun f => f.content)).map (fun d => d.rows.length) := by
  induction files with
  | nil => rfl
  | cons f fs ih =>
    cases h : f.content with
    | none => simp [List.filterMap_cons, tagSource, h, ih]
    | some d => simp [List.filterMap_cons, tagSource, h, setColumn, ih]

/-- Claim C1: the row count of the table merge_excels returns equals the sum
of the row counts of the successfully loaded tables (in particular, when
every load succeeds, the sum of all the input row counts). -/
theorem merge_excels_row_count (files : List InputFile) :
    (merge_excels files).rows.length
      = ((files.filterMap (fun f => f.content)).map (fun d => d.rows.length)).sum := by
  unfold merge_excels
  split
  · next h =>
    have hf : files = [] := by simpa [List.isEmpty_iff] using h
    subst hf
    rfl
  · next h =>
    split
    · next h2 =>
      have hfr : files.filterMap tagSource = [] := by
        simpa [List.isEmpty_iff] using h2
      have hmap := frames_nrows files
      rw [hfr] at hmap
      simp [emptyDF, ← hmap]
    · next h2 =>
      simp only [concatIgnoreIndex]
      rw [concatRows_length, frames_nrows]

/-! ### Failure skipping (claims C4 and C5) -/

theorem filterMap_tagSource_filter (files : List InputFile) :
    (files.filter (fun f => f.content.isSome)).filterMap tagSource
      = files.filterMap tagSource := by
  induction files with
  | nil => rfl
  | cons f fs ih =>
    cases h : f.content with
    | none => simp [List.filter_cons, List.filterMap_cons, tagSource, h, ih]
    | some d => simp [List.filter_cons, List.filterMap_cons, tagSource, h, ih]

/-- Claim C4: a failing file never aborts the merge and contributes nothing:
merging any file list gives exactly the same table as merging only the
files whose load succeeded. -/
theorem merge_excels_skips_failures (files : List InputFile) :
    merge_excels files
      = merge_excels (files.filter (fun f => f.content.isSome)) := by
  by_cases h1 : files = []
  · subst h1
    rfl
  · by_cases h2 : files.filter (fun f => f.content.isSome) = []
    · have hfr : files.filterMap tagSource = [] := by
        rw [← filterMap_tagSource_filter, h2]
        rfl
      simp [merge_excels, List.isEmpty_iff, h1, h2, hfr]
    · simp [merge_excels, List.isEmpty_iff, h1, h2, filterMap_tagSource_filter]

theorem filterMap_tagSource_eq_nil (files : List InputFile)
    (h : ∀ f ∈ files, f.content = none) :
    files.filterMap tagSource = [] := by
  induction files with
  | nil => rfl
  | cons f fs ih =>
    have hf := h f (by simp)
    simp [List.filterMap_cons, tagSource, hf,
      ih (fun g hg => h g (by simp [hg]))]

/-- Claim C5: on an empty file list, or when every file fails to load,
merge_excels returns the empty table: no columns and no rows, and no error
(the function is total). -/
theorem merge_excels_empty (files : List InputFile)
    (h : files = [] ∨ ∀ f ∈ files, f.content = none) :
    merge_excels files = emptyDF ∧ emptyDF.cols = [] ∧ emptyDF.rows = [] := by
  refine ⟨?_, rfl, rfl⟩
  rcases h with h | h
  · subst h
    rfl
  · by_cases h1 : files = []
    · subst h1
      rfl
    · simp [merge_excels, List.isEmpty_iff, h1, filterMap_tagSource_eq_nil files h]

/-- Witness for claim C5 at the concrete input of one unreadable file. -/
theorem merge_excels_empty_witness :
    merge_excels [{ name := "bad.xlsx", content := none }] = emptyDF
      ∧ emptyDF.cols = [] ∧ emptyDF.rows = [] :=
  merge_excels_empty [{ name := "bad.xlsx", content := none }]
    (Or.inr (by simp))

/-! ### Provenance of the merged rows (claim C3) -/

theorem tagged_has_source (files : List InputFile) :
    ∀ d ∈ files.filterMap tagSource, "__source_file" ∈ d.cols := by
  intro d hd
  rw [List.mem_filterMap] at hd
  obtain ⟨f, hf, htag⟩ := hd
  unfold tagSource at htag
  cases hc : f.content with
  | none => rw [hc] at htag; simp at htag
  | some e =>
    rw [hc] at htag
    simp only [Option.map_some', Option.some_inj] at htag
    subst htag
    by_cases he : "__source_file" ∈ e.cols
    · simp [setColumn, he]
    · simp [setColumn, he]

theorem provCol_concat (dfs : List DataFrame)
    (h : ∀ d ∈ dfs, "__source_file" ∈ d.cols) :
    provCol (concatIgnoreIndex dfs) = (dfs.map provCol).flatten := by
  unfold provCol concatIgnoreIndex concatRows
  simp only [List.map_flatten, List.map_map]
  congr 1
  apply List.map_congr_left
  intro d hd
  simp only [Function.comp_def, List.map_map]
  apply List.map_congr_left
  intro r _
  rw [cellVal_normalizeRow]
  rw [if_pos ((mem_unionCols dfs "__source_file").mpr ⟨d, hd, h d hd⟩)]

theorem frames_provCols (files : List InputFile) :
    (files.filterMap tagSource).map provCol
      = files.filterMap
          (fun f => f.content.map
            (fun d => List.replicate d.rows.length (Value.str f.name))) := by
  induction files with
  | nil => rfl
  | cons f fs ih =>
    cases hc : f.content with
    | none => simp [List.filterMap_cons, tagSource, hc, ih]
    | some d => simp [List.filterMap_cons, tagSource, hc, ih, provCol_setColumn]

/-- Claim C3: the provenance column of the merged table is, row by row and
in order, the base name of the file each row was loaded from (each loaded
table contributing exactly its row count of copies of its file name), and
no provenance entry is null. -/
theorem merge_excels_provenance (files : List InputFile) :
    provCol (merge_excels files)
        = (files.filterMap
            (fun f => f.content.map
              (fun d => List.replicate d.rows.length (Value.str f.name)))).flatten
      ∧ ∀ v ∈ provCol (merge_excels files), v ≠ Value.null := by
  have hmain : provCol (merge_excels files)
      = (files.filterMap
          (fun f => f.content.map
            (fun d => List.replicate d.rows.length (Value.str f.name)))).flatten := by
    rw [← frames_provCols]
    unfold merge_excels
    split
    · next h =>
      have hf : files = [] := by simpa [List.isEmpty_iff] using h
      subst hf
      rfl
    · next h =>
      split
      · next h2 =>
        have hfr : files.filterMap tagSource = [] := by
          simpa [List.isEmpty_iff] using h2
        simp [hfr, provCol, emptyDF]
      · next h2 =>
        exact provCol_concat _ (tagged_has_source files)
  refine ⟨hmain, ?_⟩
  intro v hv
  rw [hmain, List.mem_flatten] at hv
  obtain ⟨l, hl, hvl⟩ := hv
  rw [List.mem_filterMap] at hl
  obtain ⟨f, hf, hfl⟩ := hl
  cases hc : f.content with
  | none => rw [hc] at hfl; simp at hfl
  | some d =>
    rw [hc] at hfl
    simp only [Option.map_some', Option.some_inj] at hfl
    subst hfl
    rw [List.eq_of_mem_replicate hvl]
    simp

/-! ### Order of the merged rows and freshness of the index (claim C6) -/


theorem unionColsFrom_congr (dfs1 : List DataFrame) (dfs2 : List DataFrame)
    (acc : List String)
    (h : dfs1.map stripIndex = dfs2.map stripIndex) :
    unionColsFrom acc dfs1 = unionColsFrom acc dfs2 := by
  induction dfs1 generalizing dfs2 acc with
  | nil =>
    have h2 : dfs2 = [] := by simpa using h.symm
    subst h2
    rfl
  | cons d1 ds1 ih =>
    cases dfs2 with
    | nil => simp at h
    | cons d2 ds2 =>
      simp only [List.map_cons, List.cons.injEq] at h
      obtain ⟨hd, ht⟩ := h
      have hcols : d1.cols = d2.cols := congrArg Prod.fst hd
      simp only [unionColsFrom, hcols]
      exact ih ds2 (addNewCols acc d2.cols) ht

theorem map_rows_congr (dfs1 : List DataFrame) (dfs2 : List DataFrame)
    (f : Row → Row) (h : dfs1.map stripIndex = dfs2.map stripIndex) :
    dfs1.map (fun d => d.rows.map f) = dfs2.map (fun d => d.rows.map f) := by
  induction dfs1 generalizing dfs2 with
  | nil =>
    have h2 : dfs2 = [] := by simpa using h.symm
    subst h2
    rfl
  | cons d1 ds1 ih =>
    cases dfs2 with
    | nil => simp at h
    | cons d2 ds2 =>
      simp only [List.map_cons, List.cons.injEq] at h ⊢
      obtain ⟨hd, ht⟩ := h
      have hrows : d1.rows = d2.rows := congrArg Prod.snd hd
      exact ⟨by rw [hrows], ih ds2 ht⟩

theorem concatIgnoreIndex_congr (dfs1 : List DataFrame) (dfs2 : List DataFrame)
    (h : dfs1.map stripIndex = dfs2.map stripIndex) :
    concatIgnoreIndex dfs1 = concatIgnoreIndex dfs2 := by
  have hu : unionCols dfs1 = unionCols dfs2 :=
    unionColsFrom_congr dfs1 dfs2 [] h
  have hr : concatRows dfs1 = concatRows dfs2 := by
    unfold concatRows
    rw [hu]
    rw [map_rows_congr dfs1 dfs2 (normalizeRow (unionCols dfs2)) h]
  unfold concatIgnoreIndex
  rw [hu, hr]

theorem stripped_frames_reindex (g : DataFrame → List Int)
    (files : List InputFile) :
    ((files.map (reindexFile g)).filterMap tagSource).map stripIndex
      = (files.filterMap tagSource).map stripIndex := by
  induction files with
  | nil => rfl
  | cons f fs ih =>
    cases h : f.content with
    | none =>
      have hnone : tagSource (reindexFile g f) = none := by
        simp [tagSource, reindexFile, h]
      have hnone2 : tagSource f = none := by simp [tagSource, h]
      simp only [List.map_cons, List.filterMap_cons, hnone, hnone2]
      exact ih
    | some d =>
      have hsome : tagSource (reindexFile g f)
          = some (setColumn (reindexDF g d) "__source_file" (Value.str f.name)) := by
        simp [tagSource, reindexFile, h, reindexDF]
      have hsome2 : tagSource f
          = some (setColumn d "__source_file" (Value.str f.name)) := by
        simp [tagSource, h]
      simp only [List.map_cons, List.filterMap_cons, hsome, hsome2]
      exact congrArg₂ (· :: ·) rfl ih

/-- Claim C6: the merged rows are exactly the rows of the tagged loaded
tables, aligned to the common columns, in source processing order and
original row order within each source; the merged index is the fresh
contiguous sequence 0..n-1; and replacing every per-source index by an
arbitrary one leaves the merged table unchanged. -/
theorem merge_excels_order (files : List InputFile) :
    (merge_excels files).index
        = (List.range (merge_excels files).rows.length).map Int.ofNat
      ∧ (merge_excels files).rows
        = ((files.filterMap tagSource).map
            (fun d => d.rows.map
              (normalizeRow (unionCols (files.filterMap tagSource))))).flatten
      ∧ ∀ g : DataFrame → List Int,
          merge_excels (files.map (reindexFile g)) = merge_excels files := by
  refine ⟨?_, ?_, ?_⟩
  · unfold merge_excels
    split
    · simp [emptyDF]
    · split
      · simp [emptyDF]
      · rfl
  · unfold merge_excels
    split
    · next h =>
      have hf : files = [] := by simpa [List.isEmpty_iff] using h
      subst hf
      rfl
    · split
      · next h2 =>
        have hfr : files.filterMap tagSource = [] := by
          simpa [List.isEmpty_iff] using h2
        simp [hfr, emptyDF]
      · rfl
  · intro g
    have hstrip := stripped_frames_reindex g files
    by_cases h1 : files = []
    · subst h1
      rfl
    · have h1m : files.map (reindexFile g) ≠ [] := by simpa using h1
      by_cases h2 : files.filterMap tagSource = []
      · have h2m : (files.map (reindexFile g)).filterMap tagSource = [] := by
          rw [h2] at hstrip
          simpa using hstrip
        simp [merge_excels, List.isEmpty_iff, h1, h1m, h2, h2m]
      · have h2m : (files.map (reindexFile g)).filterMap tagSource ≠ [] := by
          intro hh
          rw [hh] at hstrip
          exact h2 (by simpa using hstrip.symm)
        simp only [merge_excels, List.isEmpty_iff]
        rw [if_neg h1m, if_neg h2m, if_neg h1, if_neg h2]
        exact concatIgnoreIndex_congr _ _ hstrip

/-! ### The summarizer (claims C2, C7, C8, C10) and tagging (claim C9) -/


theorem generate_summary_eq (ts : String) (df : DataFrame)
    (hs : "Sales" ∈ df.cols) (he : "Expenses" ∈ df.cols) :
    generate_summary ts df
      = some (summaryFrame (vsum (df.rows.map (fun r => cellVal r "Sales")))
               (vsum (df.rows.map (fun r => cellVal r "Expenses")))
               (vsum (df.rows.map (fun r => cellVal r "Sales"))
                 - vsum (df.rows.map (fun r => cellVal r "Expenses"))),
             chartOf ts
               (summaryFrame (vsum (df.rows.map (fun r => cellVal r "Sales")))
                 (vsum (df.rows.map (fun r => cellVal r "Expenses")))
                 (vsum (df.rows.map (fun r => cellVal r "Sales"))
                   - vsum (df.rows.map (fun r => cellVal r "Expenses"))))) := by
  unfold generate_summary getColumn
  rw [if_pos hs, if_pos he]

theorem generate_summary_inv (ts : String) (df : DataFrame)
    (s : DataFrame) (ch : BarChart)
    (h : generate_summary ts df = some (s, ch)) :
    ∃ a b : Int, s = summaryFrame a b (a - b) ∧ ch = chartOf ts s := by
  unfold generate_summary at h
  cases h1 : getColumn df "Sales" with
  | none => rw [h1] at h; exact absurd h (by simp)
  | some sales =>
    rw [h1] at h
    cases h2 : getColumn df "Expenses" with
    | none => rw [h2] at h; exact absurd h (by simp)
    | some expenses =>
      rw [h2] at h
      simp only [Option.some_inj, Prod.mk.injEq] at h
      obtain ⟨hs, hc⟩ := h
      exact ⟨vsum sales, vsum expenses, hs.symm, by rw [← hs, ← hc]⟩

/-- Claim C2: when the table has Sales and Expenses columns, the summary
record holds their sums, and its Total Profit entry is exactly the Total
Sales entry minus the Total Expenses entry. -/
theorem generate_summary_identity (ts : String) (df : DataFrame)
    (hs : "Sales" ∈ df.cols) (he : "Expenses" ∈ df.cols) :
    ∃ s ch, generate_summary ts df = some (s, ch)
      ∧ s.rows.length = 1
      ∧ ∀ r ∈ s.rows,
          cellVal r "Total Sales"
              = Value.int (vsum (df.rows.map (fun x => cellVal x "Sales")))
            ∧ cellVal r "Total Expenses"
              = Value.int (vsum (df.rows.map (fun x => cellVal x "Expenses")))
            ∧ cellVal r "Total Profit"
              = Value.int (vsum (df.rows.map (fun x => cellVal x "Sales"))
                  - vsum (df.rows.map (fun x => cellVal x "Expenses"))) := by
  refine ⟨_, _, generate_summary_eq ts df hs he, rfl, ?_⟩
  intro r hr
  simp only [summaryFrame, List.mem_singleton] at hr
  subst hr
  exact ⟨rfl, rfl, rfl⟩

/-- Witness for claim C2 at the concrete three-row table of the spec. -/
theorem generate_summary_identity_witness :
    "Sales" ∈ dfExample.cols ∧ "Expenses" ∈ dfExample.cols
      ∧ ∃ s ch, generate_summary "20240101_000000" dfExample = some (s, ch)
          ∧ s.rows.length = 1
          ∧ ∀ r ∈ s.rows,
              cellVal r "Total Sales"
                  = Value.int (vsum (dfExample.rows.map (fun x => cellVal x "Sales")))
                ∧ cellVal r "Total Expenses"
                  = Value.int (vsum (dfExample.rows.map (fun x => cellVal x "Expenses")))
                ∧ cellVal r "Total Profit"
                  = Value.int (vsum (dfExample.rows.map (fun x => cellVal x "Sales"))
                      - vsum (dfExample.rows.map (fun x => cellVal x "Expenses"))) :=
  ⟨by decide, by decide,
   generate_summary_identity "20240101_000000" dfExample (by decide) (by decide)⟩

/-- Claim C7: when the Sales column or the Expenses column is missing, the
summarizer fails (the KeyError propagates, in both the plain and the state
threaded reading); it never converts the failure into a normal return. -/
theorem generate_summary_missing_column (ts : String) (df : DataFrame)
    (h : "Sales" ∉ df.cols ∨ "Expenses" ∉ df.cols) :
    generate_summary ts df = none ∧ generate_summary_state ts df = none := by
  rcases h with h | h
  · simp [generate_summary, generate_summary_state, getitem, getColumn, h]
  · by_cases hs : "Sales" ∈ df.cols
    · simp [generate_summary, generate_summary_state, getitem, getColumn, h, hs]
    · simp [generate_summary, generate_summary_state, getitem, getColumn, hs]

/-- Witness for claim C7 at a concrete table without a Sales column. -/
theorem generate_summary_missing_column_witness :
    ("Sales" ∉ dfNoSales.cols ∨ "Expenses" ∉ dfNoSales.cols)
      ∧ generate_summary "20240101_000001" dfNoSales = none
      ∧ generate_summary_state "20240101_000001" dfNoSales = none :=
  ⟨Or.inl (by decide),
   generate_summary_missing_column "20240101_000001" dfNoSales (Or.inl (by decide))⟩

/-- Counterexample for claim C8 as stated: at a concrete valid input the
rendered chart's horizontal axis tick labels are the summary row index
rendered as text (the single label 0, set by ax.set_xticklabels applied to
summary_df.index), not the three field names. -/
theorem generate_summary_xticklabels_counterexample :
    (generate_summary "20240102_000000" dfExample).map
        (fun p => p.2.xticklabels) = some ["0"]
      ∧ (some ["0"] : Option (List String))
          ≠ some ["Total Sales", "Total Expenses", "Total Profit"] := by
  constructor
  · rfl
  · decide

/-- Claim C8 as amended: the chart has one bar per summary field, the field
names being the bar labels shown in the legend (not on the horizontal
axis); the horizontal axis tick labels are the summary row index, the
single label 0; the vertical axis is labelled Amount; the title is
Summary; and the image is persisted at a timestamped path in the output
directory. -/
theorem generate_summary_chart (ts : String) (df : DataFrame)
    (s : DataFrame) (ch : BarChart)
    (h : generate_summary ts df = some (s, ch)) :
    ch.bars.map Prod.fst = ["Total Sales", "Total Expenses", "Total Profit"]
      ∧ ch.bars.length = 3
      ∧ ch.xticklabels = ["0"]
      ∧ ch.ylabel = "Amount"
      ∧ ch.title = "Summary"
      ∧ ch.path = "output/summary_bar_chart_" ++ ts ++ ".png" := by
  obtain ⟨a, b, hs, hc⟩ := generate_summary_inv ts df s ch h
  subst hs
  subst hc
  exact ⟨rfl, rfl, rfl, rfl, rfl, rfl⟩

/-- Witness for the amended claim C8 at the concrete three-row table. -/
theorem generate_summary_chart_witness :
    (chartOf "20240102_000001" (summaryFrame 600 200 400)).bars.map Prod.fst
        = ["Total Sales", "Total Expenses", "Total Profit"]
      ∧ (chartOf "20240102_000001" (summaryFrame 600 200 400)).bars.length = 3
      ∧ (chartOf "20240102_000001" (summaryFrame 600 200 400)).xticklabels = ["0"]
      ∧ (chartOf "20240102_000001" (summaryFrame 600 200 400)).ylabel = "Amount"
      ∧ (chartOf "20240102_000001" (summaryFrame 600 200 400)).title = "Summary"
      ∧ (chartOf "20240102_000001" (summaryFrame 600 200 400)).path
          = "output/summary_bar_chart_" ++ "20240102_000001" ++ ".png" :=
  generate_summary_chart "20240102_000001" dfExample (summaryFrame 600 200 400)
    (chartOf "20240102_000001" (summaryFrame 600 200 400)) (by decide)

/-- Claim C9: tagging a successfully loaded table sets every row's
__source_file entry to the file's base name; when the loaded table already
had a __source_file column its values are silently overwritten and the
column list is unchanged (no second column); otherwise the column is
appended once at the end. -/
theorem tagSource_overwrites (f : InputFile) (d : DataFrame)
    (h : f.content = some d) :
    tagSource f = some (setColumn d "__source_file" (Value.str f.name))
      ∧ (∀ r ∈ (setColumn d "__source_file" (Value.str f.name)).rows,
          cellVal r "__source_file" = Value.str f.name)
      ∧ ("__source_file" ∈ d.cols →
          (setColumn d "__source_file" (Value.str f.name)).cols = d.cols)
      ∧ ("__source_file" ∉ d.cols →
          (setColumn d "__source_file" (Value.str f.name)).cols
            = d.cols ++ ["__source_file"]) := by
  refine ⟨by simp [tagSource, h], ?_, ?_, ?_⟩
  · intro r hr
    simp only [setColumn, List.mem_map] at hr
    obtain ⟨r0, _, hr0⟩ := hr
    rw [← hr0]
    exact cellVal_setCell r0 _ _
  · intro hm
    simp [setColumn, hm]
  · intro hm
    simp [setColumn, hm]

/-- Witness for claim C9 at a concrete file whose table already carries a
__source_file column holding a different value. -/
theorem tagSource_overwrites_witness :
    tagSource fileDup
        = some (setColumn dfDup "__source_file" (Value.str fileDup.name))
      ∧ (∀ r ∈ (setColumn dfDup "__source_file" (Value.str fileDup.name)).rows,
          cellVal r "__source_file" = Value.str fileDup.name)
      ∧ ("__source_file" ∈ dfDup.cols →
          (setColumn dfDup "__source_file" (Value.str fileDup.name)).cols
            = dfDup.cols)
      ∧ ("__source_file" ∉ dfDup.cols →
          (setColumn dfDup "__source_file" (Value.str fileDup.name)).cols
            = dfDup.cols ++ ["__source_file"]) :=
  tagSource_overwrites fileDup dfDup rfl

/-- Claim C10: generate_summary leaves its input table unchanged - the
state threaded reading returns the input frame exactly as it was - and all
its output is the fresh one-row summary (three columns) and the chart,
agreeing with the plain reading. -/
theorem generate_summary_no_mutation (ts : String) (df out s : DataFrame)
    (ch : BarChart)
    (h : generate_summary_state ts df = some (out, s, ch)) :
    out = df ∧ generate_summary ts df = some (s, ch)
      ∧ s.cols = ["Total Sales", "Total Expenses", "Total Profit"]
      ∧ s.rows.length = 1 := by
  by_cases hs : "Sales" ∈ df.cols
  · by_cases he : "Expenses" ∈ df.cols
    · simp only [generate_summary_state, getitem, getColumn, hs, he, if_true,
        Option.map_some', Option.some_inj, Prod.mk.injEq] at h
      obtain ⟨h1, h2, h3⟩ := h
      subst h1
      subst h2
      subst h3
      refine ⟨rfl, ?_, rfl, rfl⟩
      simp only [generate_summary, getColumn, hs, he, if_true]
    · simp [generate_summary_state, getitem, getColumn, hs, he] at h
  · simp [generate_summary_state, getitem, getColumn, hs] at h

/-- Witness for claim C10 at the concrete three-row table. -/
theorem generate_summary_no_mutation_witness :
    dfExample = dfExample
      ∧ generate_summary "20240103_000000" dfExample
          = some (summaryFrame 600 200 400,
              chartOf "20240103_000000" (summaryFrame 600 200 400))
      ∧ (summaryFrame 600 200 400).cols
          = ["Total Sales", "Total Expenses", "Total Profit"]
      ∧ (summaryFrame 600 200 400).rows.length = 1 :=
  generate_summary_no_mutation "20240103_000000" dfExample dfExample
    (summaryFrame 600 200 400)
    (chartOf "20240103_000000" (summaryFrame 600 200 400)) (by decide)
